import Mathlib

/-!
Shallow embedding of the GitLab AI chat console client
(`gitlab_ai_chat.py`): version negotiation, capability-gated payload
construction, conversation-type negotiation, dispatch/session state and
the response polling loop, together with theorems checking the
specification's claims against this embedding.

Conventions used throughout:
  * Python strings are Lean `String`; a missing / `None` string field is
    `Option.none`, and Python truthiness of an optional string is
    `pyTruthy` (`None` and `""` are falsy).
  * Python exceptions are modelled with `Except String`; the error
    payload names the Python exception class.
  * A GraphQL response dictionary is `GqlDict α`: `errors` is `some msg`
    exactly when the dictionary has an `errors` key, and `data` holds the
    (already projected) payload of interest, `none` when the path of
    `.get` calls used by the source bottoms out in a default.
-/

namespace GitLabAIChatClient

/-- Python truthiness for an optional string: `None` and `""` are falsy. -/
def pyTruthy : Option String → Bool
  | none => false
  | some s => s ≠ ""

/-- Strip leading and trailing whitespace, as Python `int()` does before
parsing. -/
def trimChars (s : List Char) : List Char :=
  ((s.dropWhile Char.isWhitespace).reverse.dropWhile Char.isWhitespace).reverse

/-- Value of a nonempty all-digit character list; `none` otherwise. -/
def digitsToNat? (s : List Char) : Option Nat :=
  if s ≠ [] ∧ s.all Char.isDigit then
    some (s.foldl (fun a c => a * 10 + (c.toNat - 48)) 0)
  else none

/-- Python `int(s)` on a decimal string: optional surrounding whitespace,
optional sign, then digits; anything else raises `ValueError`. -/
def pyInt (s : List Char) : Except String Int :=
  match trimChars s with
  | '-' :: rest =>
      match digitsToNat? rest with
      | some n => .ok (-(n : Int))
      | none => .error "ValueError"
  | '+' :: rest =>
      match digitsToNat? rest with
      | some n => .ok (n : Int)
      | none => .error "ValueError"
  | t =>
      match digitsToNat? t with
      | some n => .ok (n : Int)
      | none => .error "ValueError"

/-- Python list indexing `xs[i]` for a nonnegative index: raises
`IndexError` when out of range. -/
def pyIndex {α : Type} (xs : List α) (i : Nat) : Except String α :=
  match xs.get? i with
  | some x => .ok x
  | none => .error "IndexError"

/-- Python `str.split(sep)` for a one-character separator (always yields a
nonempty list; empty input yields `[[]]`). -/
def splitOnChar (c : Char) : List Char → List (List Char)
  | [] => [[]]
  | x :: xs =>
      let rest := splitOnChar c xs
      if x = c then [] :: rest
      else
        match rest with
        | [] => [[x]]
        | r :: rs => (x :: r) :: rs

/-- Constant `PLATFORM_ORIGIN` from the source. -/
def PLATFORM_ORIGIN : String := "vs_code_extension"

/-- Reserved control message `SPECIAL_MESSAGES['CLEAR']`. -/
def SPECIAL_MESSAGES_CLEAR : String := "/clear"

/-- Minimum version for the platform-origin field. -/
def MINIMUM_PLATFORM_ORIGIN_FIELD_VERSION : String := "17.3.0"

/-- Minimum version for the additional-context field. -/
def MINIMUM_ADDITIONAL_CONTEXT_FIELD_VERSION : String := "17.5.0-pre"

/-- Minimum version for the conversation-type / thread-id fields. -/
def MINIMUM_CONVERSATION_TYPE_VERSION : String := "17.10.0-pre"

/-- Embedding of `GitLabAIChat.version_gte`, with Python's exception
behaviour kept: empty (missing) strings short-circuit to `False`; otherwise
each component is indexed and parsed with `int`, so a version with fewer
than three dotted components raises `IndexError` and a non-numeric
component raises `ValueError`.  A pre-release suffix is stripped (split on
`-`, first part) only on the patch component. -/
def version_gte (version min_version : String) : Except String Bool :=
  if version = "" || min_version = "" then .ok false
  else do
    let v_parts := splitOnChar '.' version.toList
    let min_parts := splitOnChar '.' min_version.toList
    let v0 ← pyInt (← pyIndex v_parts 0)
    let m0 ← pyInt (← pyIndex min_parts 0)
    if v0 > m0 then pure true
    else if v0 < m0 then pure false
    else do
      let v1 ← pyInt (← pyIndex v_parts 1)
      let m1 ← pyInt (← pyIndex min_parts 1)
      if v1 > m1 then pure true
      else if v1 < m1 then pure false
      else do
        let vp ← pyIndex v_parts 2
        let mp ← pyIndex min_parts 2
        let v2 ← pyInt ((splitOnChar '-' vp).headD [])
        let m2 ← pyInt ((splitOnChar '-' mp).headD [])
        pure (decide (v2 ≥ m2))

example : version_gte "17.2.9" "17.3.0" = .ok false := rfl
example : version_gte "17.2.9" "17.5.0-pre" = .ok false := rfl
example : version_gte "17.2.9" "17.10.0-pre" = .ok false := rfl
example : version_gte "17.10.0" "17.10.0-pre" = .ok true := rfl
example : version_gte "17.5.0" "17.5.0-pre" = .ok true := rfl
example : version_gte "18.0.0" "17.10.0-pre" = .ok true := rfl
example : version_gte "" "17.3.0" = .ok false := rfl
example : version_gte "foo" "17.3.0" = .error "ValueError" := rfl
example : version_gte "17.3" "17.3.0" = .error "IndexError" := rfl
example : version_gte "17.5" "17.3.0" = .ok true := rfl

/-- A GraphQL response dictionary as the callers see it: `errors` is
`some msg` exactly when the dictionary has an `errors` key (the source
only ever inspects key presence and, when it built the dictionary itself,
a single message), and `data` is the payload reached by the caller's
chain of `.get` calls (`none` when any key on that path is absent). -/
structure GqlDict (α : Type) where
  errors : Option String
  data : Option α
deriving DecidableEq, Repr

/-- Outcome of the underlying `requests.post` / `raise_for_status` /
`.json()` sequence inside `_graphql_request`: either a decoded response
dictionary or a raised `requests.RequestException` with a message. -/
inductive HttpOutcome (α : Type) where
  | success (d : GqlDict α)
  | exn (msg : String)
deriving DecidableEq, Repr

/-- Embedding of `GitLabAIChat._graphql_request`: returns the decoded response
dictionary, and on a raised transport exception returns a dictionary
whose `errors` key carries the exception message instead of propagating
the exception. -/
def graphql_request {α : Type} : HttpOutcome α → GqlDict α
  | .success d => d
  | .exn msg => { errors := some msg, data := none }

/-- Responses to the two version-discovery queries of
`get_gitlab_version`: `meta` is the `metadata { version }` query (its
`data` is the extracted `data.metadata.version` string, `none` when
absent) and `legacy` is the bare `version` query (`data` is
`data.version`). -/
structure VersionEnv where
  meta : GqlDict String
  legacy : GqlDict String
deriving DecidableEq, Repr

/-- Embedding of `GitLabAIChat.get_gitlab_version`, made explicit in the cached state:
input is the current `self.gitlab_version` and the two query responses;
output is (returned value, new `self.gitlab_version`, number of
transport calls issued).  A truthy cache short-circuits; a truthy
metadata version is cached and returned; otherwise the legacy query is
consulted — on error it returns `None` without touching the cache, on
success it stores whatever (possibly falsy) version it found. -/
def get_gitlab_version (cached : Option String) (env : VersionEnv) :
    Option String × Option String × Nat :=
  if pyTruthy cached then (cached, cached, 0)
  else if env.meta.errors = none ∧ pyTruthy env.meta.data then
    (env.meta.data, env.meta.data, 1)
  else if env.legacy.errors ≠ none then (none, cached, 2)
  else (env.legacy.data, env.legacy.data, 2)

/-- Embedding of `GitLabAIChat.get_available_conversation_types`: the introspection
response's `data` is the extracted list of
`data.__type.enumValues[*].name` strings (`[]` when the path is absent).
On an errors response, or an empty list, the fallback
`["DUO_CHAT_LEGACY"]` is returned. -/
def get_available_conversation_types (resp : GqlDict (List String)) :
    List String :=
  if resp.errors ≠ none then ["DUO_CHAT_LEGACY"]
  else
    let enum_values := resp.data.getD []
    if enum_values = [] then ["DUO_CHAT_LEGACY"] else enum_values

/-- The conversation-type chooser inlined in `send_message`
(lines 407–416): `DUO_CHAT` if advertised, else `AGENTIC_CHAT` if
advertised, else the `DUO_CHAT_LEGACY` default. -/
def choose_conversation_type (conversation_types : List String) : String :=
  if conversation_types.contains "DUO_CHAT" then "DUO_CHAT"
  else if conversation_types.contains "AGENTIC_CHAT" then "AGENTIC_CHAT"
  else "DUO_CHAT_LEGACY"

/-- Modelled from the spec (§4.3), for comparison with the source's
chooser: the preference order is fixed — most-capable interactive mode,
then the agentic mode, then the legacy fallback — and the first name
present in `advertised` is selected, defaulting to the legacy fallback. -/
def preferredTypeSpec (advertised : List String) : String :=
  match ["DUO_CHAT", "AGENTIC_CHAT", "DUO_CHAT_LEGACY"].find?
      (fun t => advertised.contains t) with
  | some t => t
  | none => "DUO_CHAT_LEGACY"

/-- One of the four mutation templates of `get_chat_mutation`: the list
of GraphQL variables the query text declares (in declaration order) and
the `defaultVariables` dictionary. -/
structure ChatMutation where
  declaredVariables : List String
  defaultVariables : List (String × String)
deriving DecidableEq, Repr

/-- The base template (no version, or GitLab 17.2 and earlier). -/
def baseMutation : ChatMutation :=
  { declaredVariables :=
      ["question", "resourceId", "currentFileContext", "clientSubscriptionId"]
    defaultVariables := [] }

/-- The GitLab 17.3.0+ template (adds the platform-origin field). -/
def platformOriginMutation : ChatMutation :=
  { declaredVariables :=
      ["question", "resourceId", "currentFileContext", "clientSubscriptionId",
       "platformOrigin"]
    defaultVariables := [("platformOrigin", PLATFORM_ORIGIN)] }

/-- The GitLab 17.5.0+ template (adds the additional-context field). -/
def additionalContextMutation : ChatMutation :=
  { declaredVariables :=
      ["question", "resourceId", "currentFileContext", "clientSubscriptionId",
       "platformOrigin", "additionalContext"]
    defaultVariables := [("platformOrigin", PLATFORM_ORIGIN)] }

/-- The GitLab 17.10.0+ template (adds conversation-type and thread-id
fields). -/
def conversationTypeMutation : ChatMutation :=
  { declaredVariables :=
      ["question", "resourceId", "currentFileContext", "clientSubscriptionId",
       "platformOrigin", "additionalContext", "conversationType", "threadId"]
    defaultVariables := [("platformOrigin", PLATFORM_ORIGIN)] }

/-- Embedding of `GitLabAIChat.get_chat_mutation`: a missing or falsy version selects
the base template; otherwise the thresholds are tried from newest to
oldest.  A `version_gte` exception propagates. -/
def get_chat_mutation (version : Option String) : Except String ChatMutation :=
  match version with
  | none => .ok baseMutation
  | some v =>
      if v = "" then .ok baseMutation
      else do
        if (← version_gte v MINIMUM_CONVERSATION_TYPE_VERSION) then
          pure conversationTypeMutation
        else if (← version_gte v MINIMUM_ADDITIONAL_CONTEXT_FIELD_VERSION) then
          pure additionalContextMutation
        else if (← version_gte v MINIMUM_PLATFORM_ORIGIN_FIELD_VERSION) then
          pure platformOriginMutation
        else
          pure baseMutation

/-- The variable-dictionary construction of `send_message`
(lines 399–420), as an insertion-ordered association list: the base
variables `question` and `clientSubscriptionId`, then the template's
`defaultVariables`, then `conversationType` when the version meets the
conversation-type threshold (chosen from the advertised list), then
`threadId` whenever the session holds a truthy thread id — the thread-id
inclusion is not version-gated in the source. -/
def buildVariables (version : String) (defaultVariables : List (String × String))
    (conversation_types : List String) (message client_subscription_id : String)
    (thread_id : Option String) : Except String (List (String × String)) := do
  let base := [("question", message),
               ("clientSubscriptionId", client_subscription_id)] ++
              defaultVariables
  let withType ←
    (do
      if (← version_gte version MINIMUM_CONVERSATION_TYPE_VERSION) then
        pure (base ++
          [("conversationType", choose_conversation_type conversation_types)])
      else
        pure base)
  if pyTruthy thread_id then pure (withType ++ [("threadId", thread_id.getD "")])
  else pure withType

/-- The full outgoing payload pipeline of `send_message`: pick the
mutation template for the (possibly missing) version, then build the
variable dictionary, passing `version or ""` as the source does. -/
def send_payload (version : Option String) (conversation_types : List String)
    (message client_subscription_id : String) (thread_id : Option String) :
    Except String (List (String × String)) := do
  let m ← get_chat_mutation version
  buildVariables (version.getD "") m.defaultVariables conversation_types
    message client_subscription_id thread_id

example :
    send_payload (some "17.2.9") [] "hello" "cid" none =
      .ok [("question", "hello"), ("clientSubscriptionId", "cid")] := rfl

example :
    send_payload (some "17.2.9") [] "hello" "cid" (some "t1") =
      .ok [("question", "hello"), ("clientSubscriptionId", "cid"),
           ("threadId", "t1")] := rfl

example :
    send_payload (some "17.10.1") ["DUO_CHAT"] "hello" "cid" (some "t1") =
      .ok [("question", "hello"), ("clientSubscriptionId", "cid"),
           ("platformOrigin", "vs_code_extension"),
           ("conversationType", "DUO_CHAT"), ("threadId", "t1")] := rfl

/-- The capability tiers of §4.2, least to most capable, each naming one
of the four mutation templates. -/
inductive Tier where
  | base
  | origin
  | context
  | convType
deriving DecidableEq, Repr

/-- Numeric rank of a tier, for the tier ordering. -/
def Tier.rank : Tier → Nat
  | .base => 0
  | .origin => 1
  | .context => 2
  | .convType => 3

/-- Tier ordering: lower capability tier first. -/
def tierLe (t1 t2 : Tier) : Bool := t1.rank ≤ t2.rank

/-- A representative server version reaching exactly each tier. -/
def tierVersion : Tier → String
  | .base => "17.2.9"
  | .origin => "17.3.0"
  | .context => "17.5.0"
  | .convType => "17.10.0"

/-- The mutation template `get_chat_mutation` selects at each tier's
representative version. -/
def mutationForTier : Tier → ChatMutation
  | .base => baseMutation
  | .origin => platformOriginMutation
  | .context => additionalContextMutation
  | .convType => conversationTypeMutation

example : ∀ t : Tier,
    get_chat_mutation (some (tierVersion t)) = .ok (mutationForTier t) := by
  intro t
  cases t <;> rfl

/-- The submission payload built at a tier's representative version. -/
def payloadFor (t : Tier) (conversation_types : List String)
    (message client_subscription_id : String) (thread_id : Option String) :
    Except String (List (String × String)) :=
  send_payload (some (tierVersion t)) conversation_types message
    client_subscription_id thread_id

/-- The thread-independent prefix of the payload a tier populates: the
base variables, the template's default variables, and the
conversation-type variable at the highest tier. -/
def payloadPrefix (t : Tier) (types : List String) (msg cid : String) :
    List (String × String) :=
  [("question", msg), ("clientSubscriptionId", cid)] ++
  (mutationForTier t).defaultVariables ++
  (if t = Tier.convType then
    [("conversationType", choose_conversation_type types)]
  else [])

/-- The variable names a tier populates (independent of the message, the
correlation id and the advertised types). -/
def keysOf (t : Tier) : List String :=
  ["question", "clientSubscriptionId"] ++
  (mutationForTier t).defaultVariables.map Prod.fst ++
  (if t = Tier.convType then ["conversationType"] else [])

/-- The `aiAction` object of a chat-mutation response:
`data.aiAction.requestId` and `data.aiAction.threadId`, each possibly
absent or null. -/
structure AiAction where
  requestId : Option String
  threadId : Option String
deriving DecidableEq, Repr

/-- Projection `data.get("data", \x7b\x7d).get("aiAction", \x7b\x7d)`: the `aiAction` object,
empty when the `data` path is absent. -/
def aiActionOf (resp : GqlDict AiAction) : AiAction :=
  resp.data.getD { requestId := none, threadId := none }

/-- The cross-request session state the dispatcher mutates
(`self.thread_id` and `self.request_ids`). -/
structure Session where
  thread_id : Option String
  request_ids : List String
deriving DecidableEq, Repr

/-- The response-handling tail of `GitLabAIChat.send_message`
(lines 424–450), given the chat-mutation response: on an errors response
or a falsy `requestId` it returns `None` with the session untouched;
otherwise it stores a truthy response `threadId` (overwriting any
existing one), appends the request id, and resolves the answer through
the polling function. -/
def send_message (s : Session) (resp : GqlDict AiAction)
    (pollFn : String → Option String) : Option String × Session :=
  if resp.errors ≠ none then (none, s)
  else
    let ai_action := aiActionOf resp
    match ai_action.requestId with
    | none => (none, s)
    | some rid =>
        if rid = "" then (none, s)
        else
          let s' : Session :=
            { thread_id :=
                if pyTruthy ai_action.threadId then ai_action.threadId
                else s.thread_id
              request_ids := s.request_ids ++ [rid] }
          (pollFn rid, s')

/-- Embedding of `GitLabAIChat.clear_chat`: with no truthy thread id it is a no-op
returning `True`; otherwise it dispatches `SPECIAL_MESSAGES['CLEAR']`
through `send_message` (modelled by the response and polling oracle for
that dispatch) and returns whether a response was resolved.  The session
fields are whatever `send_message` left behind — `clear_chat` itself
clears nothing. -/
def clear_chat (s : Session) (resp : GqlDict AiAction)
    (pollFn : String → Option String) : Bool × Session :=
  if ¬ pyTruthy s.thread_id then (true, s)
  else
    let out := send_message s resp pollFn
    (out.1.isSome, out.2)

/-- One message node of an `aiMessages` polling response: `role` and
`content` as the source reads them (`""` models an absent or null
content, matching Python falsiness). -/
structure AiMessageNode where
  role : String
  content : String
deriving DecidableEq, Repr

/-- The inner loop of `_poll_for_response` (lines 519–522): the first
node whose `role` is exactly `"assistant"` and whose `content` is truthy
yields its content. -/
def findAssistantContent : List AiMessageNode → Option String
  | [] => none
  | n :: rest =>
      if n.role = "assistant" ∧ n.content ≠ "" then some n.content
      else findAssistantContent rest

/-- Everything a resolution run could read.  `primary` gives the
`aiMessages` response of each polling attempt (its `data` is the
extracted `data.aiMessages.nodes` list).  The remaining fields are the
fallback read paths the specification describes — a direct by-message-id
lookup, the thread's message list, and the conversation's last-message
projection — so that claims about them can be stated; the source's
resolver consults none of them. -/
structure ResolveEnv where
  primary : Nat → GqlDict (List AiMessageNode)
  byMessageId : Option String
  threadMessages : List AiMessageNode
  lastMessage : Option AiMessageNode

/-- The polling loop of `_poll_for_response`, attempt `i` onwards with
`remaining` attempts left: an errors response is non-terminal (continue),
a matching assistant node resolves immediately, and budget exhaustion
yields `None`. -/
def pollFrom (primary : Nat → GqlDict (List AiMessageNode)) :
    Nat → Nat → Option String
  | _, 0 => none
  | i, remaining + 1 =>
      let resp := primary i
      if resp.errors ≠ none then pollFrom primary (i + 1) remaining
      else
        match findAssistantContent (resp.data.getD []) with
        | some c => some c
        | none => pollFrom primary (i + 1) remaining

/-- Embedding of `GitLabAIChat._poll_for_response` with its default budget of 60
attempts: only the primary polling query is ever issued. -/
def poll_for_response (env : ResolveEnv) (max_retries : Nat := 60) :
    Option String :=
  pollFrom env.primary 0 max_retries

/-- A resolution environment whose primary polling never yields content
while the by-message-id fallback read path would: every primary attempt
succeeds with an empty node list, and the fallback holds an assistant
answer. -/
def fallbackOnlyEnv : ResolveEnv :=
  { primary := fun _ => { errors := none, data := some [] }
    byMessageId := some "hello from fallback"
    threadMessages := [{ role := "assistant", content := "hello from fallback" }]
    lastMessage := some { role := "assistant", content := "hello from fallback" } }

/-- A resolution environment with one resolving primary attempt and no
fallback data. -/
def primaryOnlyEnvA : ResolveEnv :=
  { primary := fun _ =>
      { errors := none
        data := some [{ role := "assistant", content := "answer" }] }
    byMessageId := none
    threadMessages := []
    lastMessage := none }

/-- The same primary responses as `primaryOnlyEnvA` but entirely
different fallback read paths. -/
def primaryOnlyEnvB : ResolveEnv :=
  { primary := fun _ =>
      { errors := none
        data := some [{ role := "assistant", content := "answer" }] }
    byMessageId := some "other"
    threadMessages := [{ role := "assistant", content := "other" }]
    lastMessage := some { role := "user", content := "other" } }

/-- A resolution environment in which every attempt errors. -/
def erroringEnv : ResolveEnv :=
  { primary := fun _ => { errors := some "transport down", data := none }
    byMessageId := none
    threadMessages := []
    lastMessage := none }

/-- A version-discovery environment in which both query paths error. -/
def bothFailVersionEnv : VersionEnv :=
  { meta := { errors := some "e1", data := none }
    legacy := { errors := some "e2", data := none } }

/-- A version-discovery environment in which the metadata query
succeeds. -/
def metaOkVersionEnv : VersionEnv :=
  { meta := { errors := none, data := some "17.8.0" }
    legacy := { errors := some "e", data := none } }

/-- Claim C10: the transport wrapper always returns a dictionary and
never raises — on a raised transport exception the returned dictionary
carries the exception message under the `errors` key, and whenever the
returned dictionary has no `errors` key the call succeeded and the
dictionary is exactly the decoded response, so callers can branch
uniformly on the presence of `errors`. -/
theorem graphql_request_never_raises :
    ∀ (α : Type) (o : HttpOutcome α) (m : String),
      (o = .exn m → (graphql_request o).errors = some m) ∧
      ((graphql_request o).errors = none →
        ∃ d, o = .success d ∧ graphql_request o = d) := by
  intro α o m
  constructor
  · rintro rfl
    rfl
  · intro h
    cases o with
    | success d => exact ⟨d, rfl, rfl⟩
    | exn msg => simp [graphql_request] at h

/-- Witness for C10 at the concrete exception message `"boom"`. -/
theorem graphql_request_never_raises_witness :
    (graphql_request (HttpOutcome.exn "boom") : GqlDict String).errors =
      some "boom" :=
  (graphql_request_never_raises String (HttpOutcome.exn "boom") "boom").1 rfl

/-- Claim C9: when the dispatch response reports an error or carries no
truthy server-issued request id, `send_message` returns `None` and leaves
the session exactly as it was; conversely, any session mutation implies
the response was error-free and carried a truthy request id. -/
theorem dispatch_error_no_session_mutation :
    ∀ (s : Session) (resp : GqlDict AiAction) (pollFn : String → Option String),
      ((resp.errors ≠ none ∨ pyTruthy (aiActionOf resp).requestId = false) →
        send_message s resp pollFn = (none, s)) ∧
      ((send_message s resp pollFn).2 ≠ s →
        resp.errors = none ∧ pyTruthy (aiActionOf resp).requestId = true) := by
  intro s resp pollFn
  have key : (resp.errors ≠ none ∨ pyTruthy (aiActionOf resp).requestId = false) →
      send_message s resp pollFn = (none, s) := by
    intro h
    unfold send_message
    rcases h with h | h
    · simp [h]
    · by_cases he : resp.errors = none
      · cases hr : (aiActionOf resp).requestId with
        | none => simp [he, hr]
        | some rid =>
            have hrid : rid = "" := by
              by_contra hne
              simp [pyTruthy, hr, hne] at h
            simp [he, hr, hrid]
      · simp [he]
  constructor
  · exact key
  · intro h
    by_cases he : resp.errors = none
    · by_cases hr : pyTruthy (aiActionOf resp).requestId = true
      · exact ⟨he, hr⟩
      · have : pyTruthy (aiActionOf resp).requestId = false :=
          Bool.not_eq_true _ ▸ (Bool.eq_false_iff.mpr hr)
        exact absurd (congrArg Prod.snd (key (Or.inr this))) h
    · exact absurd (congrArg Prod.snd (key (Or.inl he))) h

/-- Witness for C9: an errors response at a concrete session leaves the
session untouched and yields `None`. -/
theorem dispatch_error_no_session_mutation_witness :
    send_message { thread_id := some "t1", request_ids := ["r0"] }
        { errors := some "boom", data := none } (fun _ => some "x") =
      (none, { thread_id := some "t1", request_ids := ["r0"] }) :=
  (dispatch_error_no_session_mutation
      { thread_id := some "t1", request_ids := ["r0"] }
      { errors := some "boom", data := none } (fun _ => some "x")).1
    (Or.inl (by simp))

/-- Claim C8: the negotiated conversation type is the first name of the
fixed preference order (`DUO_CHAT`, then `AGENTIC_CHAT`, then
`DUO_CHAT_LEGACY`) present in the advertised list, defaulting to the
legacy type, and a failed introspection query yields the legacy fallback
without raising. -/
theorem conversation_type_preference :
    (∀ advertised : List String,
      choose_conversation_type advertised = preferredTypeSpec advertised) ∧
    (∀ (m : String) (d : Option (List String)),
      get_available_conversation_types { errors := some m, data := d } =
        ["DUO_CHAT_LEGACY"] ∧
      choose_conversation_type
          (get_available_conversation_types { errors := some m, data := d }) =
        "DUO_CHAT_LEGACY") := by
  constructor
  · intro advertised
    by_cases h1 : "DUO_CHAT" ∈ advertised <;>
      by_cases h2 : "AGENTIC_CHAT" ∈ advertised <;>
        by_cases h3 : "DUO_CHAT_LEGACY" ∈ advertised <;>
          simp [choose_conversation_type, preferredTypeSpec, List.find?,
            h1, h2, h3]
  · intro m d
    exact ⟨rfl, rfl⟩

/-- Claim C5 counterexample: at the non-numeric version `"foo"` and the
real platform-origin threshold, `version_gte` raises `ValueError` instead
of returning `False`, refuting "unparsable compares as not meeting the
threshold rather than raising". -/
theorem version_gte_unparsable_counterexample :
    version_gte "foo" MINIMUM_PLATFORM_ORIGIN_FIELD_VERSION =
      .error "ValueError" ∧
    version_gte "foo" MINIMUM_PLATFORM_ORIGIN_FIELD_VERSION ≠ .ok false := by
  have h : version_gte "foo" MINIMUM_PLATFORM_ORIGIN_FIELD_VERSION =
      .error "ValueError" := rfl
  refine ⟨h, ?_⟩
  rw [h]
  intro hc
  exact Except.noConfusion hc

/-- Claim C5 (amended): a missing (empty) version or threshold makes
`version_gte` return `False` without raising — so an Unknown version,
which callers pass as the empty string, never satisfies any threshold —
but an unparsable version raises rather than returning `False`. -/
theorem version_gte_missing_false :
    ∀ v m : String, (v = "" ∨ m = "") → version_gte v m = .ok false := by
  intro v m h
  unfold version_gte
  rcases h with h | h <;> simp [h]

/-- Witness for C5 at the empty version and the real conversation-type
threshold. -/
theorem version_gte_missing_false_witness :
    version_gte "" MINIMUM_CONVERSATION_TYPE_VERSION = .ok false :=
  version_gte_missing_false "" MINIMUM_CONVERSATION_TYPE_VERSION (Or.inl rfl)

/-- Reduction of monadic bind on a successful `Except`. -/
theorem exceptBindOk {ε α β : Type} (a : α) (f : α → Except ε β) :
    (Except.ok a : Except ε α) >>= f = f a := rfl

/-- Reduction of monadic bind on a failed `Except`. -/
theorem exceptBindError {ε α β : Type} (e : ε) (f : α → Except ε β) :
    (Except.error e : Except ε α) >>= f = Except.error e := rfl

/-- The monadic `pure` of `Except` is `Except.ok`. -/
theorem exceptPureEq {ε α : Type} (a : α) :
    (pure a : Except ε α) = Except.ok a := rfl

/-- Lemma: `get_chat_mutation` at each tier's representative version selects
that tier's template. -/
theorem gcm_eval (t : Tier) :
    get_chat_mutation (some (tierVersion t)) = .ok (mutationForTier t) := by
  cases t <;> rfl

/-- The conversation-type threshold test at each tier's representative
version. -/
theorem vg_conv_eval (t : Tier) :
    version_gte (tierVersion t) MINIMUM_CONVERSATION_TYPE_VERSION =
      .ok (decide (t = Tier.convType)) := by
  cases t <;> rfl

/-- Full evaluation of the payload pipeline at a tier's representative
version: thread-independent prefix plus the thread field when the thread
id is truthy. -/
theorem payloadFor_eval (t : Tier) (types : List String) (msg cid : String)
    (thread : Option String) :
    payloadFor t types msg cid thread =
      .ok (payloadPrefix t types msg cid ++
        (if pyTruthy thread then [("threadId", thread.getD "")] else [])) := by
  rcases thread with _ | u
  · cases t <;> rfl
  · by_cases hu : u = ""
    · subst hu; cases t <;> rfl
    · have hb : pyTruthy (some u) = true := by simp [pyTruthy, hu]
      simp only [payloadFor, send_payload, Option.getD, gcm_eval, exceptBindOk,
        buildVariables, vg_conv_eval, payloadPrefix, hb]
      cases t <;>
        simp [exceptBindOk, mutationForTier, baseMutation,
          platformOriginMutation, additionalContextMutation,
          conversationTypeMutation] <;>
        rfl

/-- The keys of a tier's payload prefix do not depend on the message,
the correlation id or the advertised types. -/
theorem prefix_keys (t : Tier) (types : List String) (msg cid : String) :
    (payloadPrefix t types msg cid).map Prod.fst = keysOf t := by
  cases t <;> rfl

/-- The populated variable names grow monotonically with the tier. -/
theorem keysOf_mono (t1 t2 : Tier) (h : tierLe t1 t2 = true) :
    keysOf t1 ⊆ keysOf t2 := by
  cases t1 <;> cases t2 <;>
    first
      | decide
      | simp [tierLe, Tier.rank] at h

/-- The declared variable names grow monotonically with the tier. -/
theorem declared_mono (t1 t2 : Tier) (h : tierLe t1 t2 = true) :
    (mutationForTier t1).declaredVariables ⊆
      (mutationForTier t2).declaredVariables := by
  cases t1 <;> cases t2 <;>
    first
      | decide
      | simp [tierLe, Tier.rank] at h

/-- Claim C7: for every pair of capability tiers in order, the variables
declared by the higher tier's mutation template are a superset of the
lower tier's, and the variable names populated in the higher tier's
submission payload (for the same message, correlation id, advertised
types and thread state) are a superset of the lower tier's. -/
theorem tier_payload_monotonic :
    ∀ t1 t2 : Tier, tierLe t1 t2 = true →
      (∀ m1 m2 : ChatMutation,
        get_chat_mutation (some (tierVersion t1)) = .ok m1 →
        get_chat_mutation (some (tierVersion t2)) = .ok m2 →
        m1.declaredVariables ⊆ m2.declaredVariables) ∧
      (∀ (types : List String) (msg cid : String) (thread : Option String)
         (l1 l2 : List (String × String)),
        payloadFor t1 types msg cid thread = .ok l1 →
        payloadFor t2 types msg cid thread = .ok l2 →
        l1.map Prod.fst ⊆ l2.map Prod.fst) := by
  intro t1 t2 h
  constructor
  · intro m1 m2 hm1 hm2
    rw [gcm_eval] at hm1 hm2
    injection hm1 with e1
    injection hm2 with e2
    subst e1
    subst e2
    exact declared_mono t1 t2 h
  · intro types msg cid thread l1 l2 h1 h2
    rw [payloadFor_eval] at h1 h2
    injection h1 with e1
    injection h2 with e2
    subst e1
    subst e2
    rw [List.map_append, List.map_append, prefix_keys, prefix_keys]
    intro k hk
    rcases List.mem_append.mp hk with hk | hk
    · exact List.mem_append_left _ (keysOf_mono t1 t2 h hk)
    · exact List.mem_append_right _ hk

/-- Witness for C7 at the base and conversation-type tiers, with no
thread id and the `DUO_CHAT` type advertised. -/
theorem tier_payload_monotonic_witness :
    baseMutation.declaredVariables ⊆
      conversationTypeMutation.declaredVariables ∧
    ([("question", "hi"), ("clientSubscriptionId", "c")].map Prod.fst ⊆
      [("question", "hi"), ("clientSubscriptionId", "c"),
       ("platformOrigin", PLATFORM_ORIGIN),
       ("conversationType", "DUO_CHAT")].map Prod.fst) :=
  ⟨(tier_payload_monotonic Tier.base Tier.convType (by decide)).1
      baseMutation conversationTypeMutation rfl rfl,
   (tier_payload_monotonic Tier.base Tier.convType (by decide)).2
      ["DUO_CHAT"] "hi" "c" none
      [("question", "hi"), ("clientSubscriptionId", "c")]
      [("question", "hi"), ("clientSubscriptionId", "c"),
       ("platformOrigin", PLATFORM_ORIGIN),
       ("conversationType", "DUO_CHAT")] rfl rfl⟩

/-- Case analysis of `send_message`: either the error path, returning
the session unchanged, or the success path with its exact session
update. -/
theorem send_message_cases (s : Session) (resp : GqlDict AiAction)
    (pollFn : String → Option String) :
    send_message s resp pollFn = (none, s) ∨
    ∃ rid, (aiActionOf resp).requestId = some rid ∧ rid ≠ "" ∧
      resp.errors = none ∧
      send_message s resp pollFn =
        (pollFn rid,
         { thread_id :=
             if pyTruthy (aiActionOf resp).threadId then
               (aiActionOf resp).threadId
             else s.thread_id
           request_ids := s.request_ids ++ [rid] }) := by
  by_cases he : resp.errors = none
  · cases hq : (aiActionOf resp).requestId with
    | none => exact Or.inl (by simp [send_message, he, hq])
    | some rid =>
        by_cases hrid : rid = ""
        · exact Or.inl (by simp [send_message, he, hq, hrid])
        · exact Or.inr ⟨rid, rfl, hrid, he, by simp [send_message, he, hq, hrid]⟩
  · exact Or.inl (by simp [send_message, he])

/-- Claim C4 counterexample: at version `"17.2.9"` (below all
thresholds) with the session thread id set to `"t1"`, the payload DOES
contain a thread field, refuting "no thread fields regardless of whether
the session's thread id is set". -/
theorem payload_below_thresholds_counterexample :
    send_payload (some "17.2.9") [] "hello" "cid" (some "t1") =
      .ok [("question", "hello"), ("clientSubscriptionId", "cid"),
           ("threadId", "t1")] ∧
    "threadId" ∈
      ([("question", "hello"), ("clientSubscriptionId", "cid"),
        ("threadId", "t1")].map Prod.fst) :=
  ⟨rfl, by decide⟩

/-- Claim C4 (amended): at version `"17.2.9"` the payload contains only
the content and the client correlation id — no origin, context or
conversation-type fields — when the session thread id is unset; when a
truthy thread id is set, the payload additionally contains exactly the
thread field, because the thread-id inclusion is not version-gated. -/
theorem payload_below_thresholds_amended :
    ∀ (types : List String) (msg cid : String),
      send_payload (some "17.2.9") types msg cid none =
        .ok [("question", msg), ("clientSubscriptionId", cid)] ∧
      ∀ t : String, t ≠ "" →
        send_payload (some "17.2.9") types msg cid (some t) =
          .ok [("question", msg), ("clientSubscriptionId", cid),
               ("threadId", t)] := by
  intro types msg cid
  constructor
  · rfl
  · intro t ht
    have hb : pyTruthy (some t) = true := by simp [pyTruthy, ht]
    have hm : get_chat_mutation (some "17.2.9") = .ok baseMutation := rfl
    have hv : version_gte "17.2.9" MINIMUM_CONVERSATION_TYPE_VERSION =
        .ok false := rfl
    simp [send_payload, hm, hv, hb, exceptBindOk, buildVariables,
      baseMutation]

/-- Witness for C4 at a concrete message, correlation id and thread
id. -/
theorem payload_below_thresholds_amended_witness :
    send_payload (some "17.2.9") [] "m" "c" none =
      .ok [("question", "m"), ("clientSubscriptionId", "c")] ∧
    send_payload (some "17.2.9") [] "m" "c" (some "t") =
      .ok [("question", "m"), ("clientSubscriptionId", "c"),
           ("threadId", "t")] :=
  ⟨(payload_below_thresholds_amended [] "m" "c").1,
   (payload_below_thresholds_amended [] "m" "c").2 "t" (by decide)⟩

/-- Claim C3 counterexample: a session with established thread id `"t1"`
that dispatches successfully and receives thread id `"t2"` ends with
thread id `"t2"` — the established thread id is silently overwritten. -/
theorem thread_id_overwrite_counterexample :
    send_message { thread_id := some "t1", request_ids := [] }
        { errors := none,
          data := some { requestId := some "r1", threadId := some "t2" } }
        (fun _ => some "answer") =
      (some "answer", { thread_id := some "t2", request_ids := ["r1"] }) ∧
    (send_message { thread_id := some "t1", request_ids := [] }
        { errors := none,
          data := some { requestId := some "r1", threadId := some "t2" } }
        (fun _ => some "answer")).2.thread_id ≠ some "t1" :=
  ⟨rfl, by decide⟩

/-- Claim C3 (amended): an established truthy thread id is included in
every subsequent dispatch payload until reset, but a successful dispatch
whose response carries a truthy thread id DOES silently overwrite the
established session thread id (last writer wins); a response without a
truthy thread id leaves it unchanged. -/
theorem thread_id_reuse_and_overwrite :
    (∀ (v : String) (dv : List (String × String)) (types : List String)
       (msg cid t : String) (l : List (String × String)), t ≠ "" →
       buildVariables v dv types msg cid (some t) = .ok l →
       ("threadId", t) ∈ l) ∧
    (∀ (s : Session) (resp : GqlDict AiAction)
       (pollFn : String → Option String),
       resp.errors = none → pyTruthy (aiActionOf resp).requestId = true →
       (send_message s resp pollFn).2.thread_id =
         (if pyTruthy (aiActionOf resp).threadId then (aiActionOf resp).threadId
          else s.thread_id)) := by
  constructor
  · intro v dv types msg cid t l ht hl
    have hb : pyTruthy (some t) = true := by simp [pyTruthy, ht]
    unfold buildVariables at hl
    cases hv : version_gte v MINIMUM_CONVERSATION_TYPE_VERSION with
    | error e =>
        rw [hv] at hl
        simp [exceptBindError] at hl
    | ok b =>
        rw [hv] at hl
        cases b <;>
          · simp [exceptBindOk, exceptPureEq, hb] at hl
            rw [← hl]
            simp
  · intro s resp pollFn he hr
    cases hq : (aiActionOf resp).requestId with
    | none => rw [hq] at hr; simp [pyTruthy] at hr
    | some rid =>
        have hrid : ¬ rid = "" := by
          rw [hq] at hr
          simpa [pyTruthy] using hr
        simp [send_message, he, hq, hrid]

/-- Witness for C3: the thread field of a concrete payload, and the
overwrite rule at a concrete successful dispatch. -/
theorem thread_id_reuse_and_overwrite_witness :
    ("threadId", "t9") ∈
      [("question", "m"), ("clientSubscriptionId", "c"), ("threadId", "t9")] ∧
    (send_message { thread_id := some "a", request_ids := [] }
        { errors := none,
          data := some { requestId := some "r", threadId := some "b" } }
        (fun _ => none)).2.thread_id =
      (if pyTruthy (aiActionOf
            { errors := none,
              data := some { requestId := some "r", threadId := some "b" } }).threadId
        then (aiActionOf
            { errors := none,
              data := some { requestId := some "r", threadId := some "b" } }).threadId
        else some "a") :=
  ⟨thread_id_reuse_and_overwrite.1 "17.2.9" [] [] "m" "c" "t9"
      [("question", "m"), ("clientSubscriptionId", "c"), ("threadId", "t9")]
      (by decide) rfl,
   thread_id_reuse_and_overwrite.2
      { thread_id := some "a", request_ids := [] }
      { errors := none,
        data := some { requestId := some "r", threadId := some "b" } }
      (fun _ => none) rfl (by decide)⟩

/-- Claim C2 counterexample: a session with thread id `"t1"` and request
history `["r0"]` whose reset dispatch succeeds and resolves ends with the
thread id still `"t1"` and the history grown to `["r0", "r1"]` — nothing
is cleared. -/
theorem clear_chat_counterexample :
    clear_chat { thread_id := some "t1", request_ids := ["r0"] }
        { errors := none,
          data := some { requestId := some "r1", threadId := none } }
        (fun _ => some "done") =
      (true, { thread_id := some "t1", request_ids := ["r0", "r1"] }) ∧
    (clear_chat { thread_id := some "t1", request_ids := ["r0"] }
        { errors := none,
          data := some { requestId := some "r1", threadId := none } }
        (fun _ => some "done")).2.thread_id ≠ none ∧
    (clear_chat { thread_id := some "t1", request_ids := ["r0"] }
        { errors := none,
          data := some { requestId := some "r1", threadId := none } }
        (fun _ => some "done")).2.request_ids ≠ [] :=
  ⟨rfl, by decide, by decide⟩

/-- Claim C2 (amended): on a session with an established (truthy) thread
id, reset dispatches the reserved control message through the normal
submit/resolve path but clears nothing: the session's thread id remains
non-null under every dispatch outcome, and the request-id history is
never cleared — it is either unchanged (failed dispatch) or grows by the
new request id (successful dispatch). -/
theorem clear_chat_does_not_clear_session :
    ∀ (s : Session) (resp : GqlDict AiAction)
      (pollFn : String → Option String),
      pyTruthy s.thread_id = true →
      (clear_chat s resp pollFn).2.thread_id ≠ none ∧
      ((clear_chat s resp pollFn).2.request_ids = s.request_ids ∨
        ∃ r, (clear_chat s resp pollFn).2.request_ids =
          s.request_ids ++ [r]) := by
  intro s resp pollFn h
  obtain ⟨v, hv⟩ : ∃ v, s.thread_id = some v := by
    cases hst : s.thread_id with
    | none => rw [hst] at h; simp [pyTruthy] at h
    | some v => exact ⟨v, rfl⟩
  have hcc : clear_chat s resp pollFn =
      ((send_message s resp pollFn).1.isSome,
        (send_message s resp pollFn).2) := by
    simp [clear_chat, h]
  rcases send_message_cases s resp pollFn with hsm | ⟨rid, _, _, _, hsm⟩
  · rw [hcc, hsm]
    exact ⟨by simp [hv], Or.inl rfl⟩
  · rw [hcc, hsm]
    refine ⟨?_, Or.inr ⟨rid, rfl⟩⟩
    by_cases hth : pyTruthy (aiActionOf resp).threadId
    · obtain ⟨w, hw⟩ : ∃ w, (aiActionOf resp).threadId = some w := by
        cases hth2 : (aiActionOf resp).threadId with
        | none => rw [hth2] at hth; simp [pyTruthy] at hth
        | some w => exact ⟨w, rfl⟩
      have hw2 : pyTruthy (some w) = true := hw ▸ hth
      simp [hth, hw, hw2]
    · simp [hth, hv]

/-- Witness for C2 at a concrete session whose reset dispatch fails. -/
theorem clear_chat_does_not_clear_session_witness :
    (clear_chat { thread_id := some "t1", request_ids := ["r0"] }
        { errors := some "boom", data := none }
        (fun _ => none)).2.thread_id ≠ none ∧
    ((clear_chat { thread_id := some "t1", request_ids := ["r0"] }
        { errors := some "boom", data := none }
        (fun _ => none)).2.request_ids = ["r0"] ∨
      ∃ r, (clear_chat { thread_id := some "t1", request_ids := ["r0"] }
        { errors := some "boom", data := none }
        (fun _ => none)).2.request_ids = ["r0"] ++ [r]) :=
  clear_chat_does_not_clear_session
    { thread_id := some "t1", request_ids := ["r0"] }
    { errors := some "boom", data := none } (fun _ => none) (by decide)

/-- Claim C1 counterexample: in an environment where every primary
polling attempt succeeds with no content while the by-message-id
fallback read path holds an assistant answer, resolution still returns
nothing — the resolver never attempts the fallback strategy, refuting
the claimed fallback sequence. -/
theorem resolver_fallback_counterexample :
    poll_for_response fallbackOnlyEnv 60 = none ∧
    fallbackOnlyEnv.byMessageId = some "hello from fallback" ∧
    poll_for_response fallbackOnlyEnv 60 ≠ some "hello from fallback" :=
  ⟨rfl, rfl, by decide⟩

/-- The polling loop returns nothing once every in-budget attempt is
error or content-free. -/
theorem pollFrom_budget_none (primary : Nat → GqlDict (List AiMessageNode)) :
    ∀ (remaining i : Nat),
      (∀ j, j < i + remaining → (primary j).errors = none →
        findAssistantContent ((primary j).data.getD []) = none) →
      pollFrom primary i remaining = none := by
  intro remaining
  induction remaining with
  | zero => intro i _; rfl
  | succ r ih =>
      intro i h
      have hrest : ∀ j, j < (i + 1) + r → (primary j).errors = none →
          findAssistantContent ((primary j).data.getD []) = none :=
        fun j hj hje => h j (by omega) hje
      by_cases he : (primary i).errors = none
      · have hf := h i (by omega) he
        simp only [pollFrom, he, hf]
        simpa using ih (i + 1) hrest
      · simp only [pollFrom]
        simpa [he] using ih (i + 1) hrest

/-- Claim C1 (amended): the resolver attempts NO fallback strategies —
resolution is a function of the primary polling responses alone,
unaffected by the by-message-id, thread-message-list and last-message
read paths, and when no in-budget primary attempt yields truthy
assistant content the run ends with no response instead of consulting
any fallback. -/
theorem resolver_attempts_no_fallback_strategies :
    (∀ (e1 e2 : ResolveEnv) (n : Nat), e1.primary = e2.primary →
      poll_for_response e1 n = poll_for_response e2 n) ∧
    (∀ (e : ResolveEnv) (n : Nat),
      (∀ i, i < n → (e.primary i).errors = none →
        findAssistantContent ((e.primary i).data.getD []) = none) →
      poll_for_response e n = none) := by
  constructor
  · intro e1 e2 n h
    unfold poll_for_response
    rw [h]
  · intro e n h
    unfold poll_for_response
    exact pollFrom_budget_none e.primary n 0 (fun j hj hje => h j (by omega) hje)

/-- Witness for C1: two environments sharing primary responses but with
different fallback data resolve identically, and an all-errors
environment resolves to nothing. -/
theorem resolver_attempts_no_fallback_strategies_witness :
    poll_for_response primaryOnlyEnvA 2 = poll_for_response primaryOnlyEnvB 2 ∧
    poll_for_response erroringEnv 3 = none :=
  ⟨resolver_attempts_no_fallback_strategies.1 primaryOnlyEnvA primaryOnlyEnvB
      2 rfl,
   resolver_attempts_no_fallback_strategies.2 erroringEnv 3 (by decide)⟩

/-- Claim C6 counterexample: when both discovery paths fail, the first
invocation issues two transport calls, caches nothing, and a second
invocation issues two more transport calls instead of the claimed
zero. -/
theorem version_discovery_cache_counterexample :
    get_gitlab_version none bothFailVersionEnv = (none, none, 2) ∧
    (get_gitlab_version (get_gitlab_version none bothFailVersionEnv).2.1
        bothFailVersionEnv).2.2 ≠ 0 :=
  ⟨rfl, by decide⟩

/-- Claim C6 (amended): version discovery caches only a truthy
discovered version — after an invocation whose result is truthy, any
later invocation issues no transport calls and returns the cached
result; after an invocation whose result is falsy (both paths failed or
yielded a falsy version), nothing usable is cached and every later
invocation issues transport calls again. -/
theorem version_discovery_caches_only_success :
    ∀ (cached : Option String) (env : VersionEnv),
      (pyTruthy (get_gitlab_version cached env).1 = true →
        (get_gitlab_version cached env).2.1 =
          (get_gitlab_version cached env).1 ∧
        ∀ env' : VersionEnv,
          get_gitlab_version (get_gitlab_version cached env).2.1 env' =
            ((get_gitlab_version cached env).1,
             (get_gitlab_version cached env).1, 0)) ∧
      (pyTruthy (get_gitlab_version cached env).1 = false →
        pyTruthy (get_gitlab_version cached env).2.1 = false ∧
        ∀ env' : VersionEnv,
          (get_gitlab_version (get_gitlab_version cached env).2.1 env').2.2 ≠
            0) := by
  intro cached env
  by_cases h1 : pyTruthy cached = true
  · have hout : get_gitlab_version cached env = (cached, cached, 0) := by
      simp [get_gitlab_version, h1]
    rw [hout]
    constructor
    · intro _
      refine ⟨rfl, fun env' => ?_⟩
      simp [get_gitlab_version, h1]
    · intro hfa
      exact absurd h1 (by simp [hfa])
  · by_cases h2 : env.meta.errors = none ∧ pyTruthy env.meta.data = true
    · have hout : get_gitlab_version cached env =
          (env.meta.data, env.meta.data, 1) := by
        simp [get_gitlab_version, h1, h2]
      rw [hout]
      constructor
      · intro _
        refine ⟨rfl, fun env' => ?_⟩
        simp [get_gitlab_version, h2.2]
      · intro hfa
        exact absurd h2.2 (by simp [hfa])
    · by_cases h3 : env.legacy.errors = none
      · have hout : get_gitlab_version cached env =
            (env.legacy.data, env.legacy.data, 2) := by
          simp [get_gitlab_version, h1, h2, h3]
        rw [hout]
        constructor
        · intro htr
          refine ⟨rfl, fun env' => ?_⟩
          simp [get_gitlab_version, htr]
        · intro hfa
          refine ⟨hfa, fun env' => ?_⟩
          simp only [get_gitlab_version, hfa]
          split
          · simp_all
          · split
            · simp_all
            · split <;> simp_all
      · have hout : get_gitlab_version cached env = (none, cached, 2) := by
          simp [get_gitlab_version, h1, h2, h3]
        rw [hout]
        constructor
        · intro htr
          exact absurd htr (by simp [pyTruthy])
        · intro _
          have hc : pyTruthy cached = false := by
            simpa using h1
          refine ⟨hc, fun env' => ?_⟩
          simp only [get_gitlab_version, hc]
          split
          · simp_all
          · split
            · simp_all
            · split <;> simp_all

/-- Witness for C6: a successful metadata discovery is cached and a
later invocation is call-free, while a failed discovery leaves later
invocations issuing calls. -/
theorem version_discovery_caches_only_success_witness :
    get_gitlab_version (get_gitlab_version none metaOkVersionEnv).2.1
        metaOkVersionEnv =
      ((get_gitlab_version none metaOkVersionEnv).1,
       (get_gitlab_version none metaOkVersionEnv).1, 0) ∧
    (get_gitlab_version (get_gitlab_version none bothFailVersionEnv).2.1
        bothFailVersionEnv).2.2 ≠ 0 :=
  ⟨((version_discovery_caches_only_success none metaOkVersionEnv).1
      (by decide)).2 metaOkVersionEnv,
   ((version_discovery_caches_only_success none bothFailVersionEnv).2
      (by decide)).2 bothFailVersionEnv⟩

end GitLabAIChatClient
